import Mathlib

/-!
Verification of the page-object / element-resolution layer of a
Selenium-based BDD test harness (`features/lib/element.py`,
`features/lib/section.py`, `features/lib/form.py`,
`features/pages/base_page.py`).

The live document is modelled as a rose tree of nodes identified by
natural numbers.  Which nodes match a given (by, locator) pair is the
browser driver's judgment — an external collaborator — so it is a
parameter of the model (`Driver.matchesLoc`); the repository's code only
composes locator strings and chooses search scopes.  The one piece of
driver semantics the model fixes, because the repository's own string
rewriting depends on it, is the documented Selenium/XPath rule that an
XPath location path beginning with `//` is absolute: evaluated from the
document root even when the search is started from an element handle.

Time is an abstract tick counter: every driver query observes the
document at some tick (`Driver.docAt`), and the `WebDriverWait` polling
loop examines one tick per poll, for a bounded number of polls (the
timeout), so resolution always terminates.
-/

/-- A node of the live document: an identifier and its child nodes. -/
inductive DomNode where
  | mk (nid : Nat) (children : List DomNode)
deriving Repr

/-- The identifier of a node. -/
def DomNode.nid : DomNode → Nat
  | .mk i _ => i

/-- The children of a node. -/
def DomNode.children : DomNode → List DomNode
  | .mk _ cs => cs

mutual
/-- All identifiers in the subtree rooted at a node (the node included). -/
def subtreeIds : DomNode → List Nat
  | .mk i cs => i :: subtreeIdsL cs

/-- All identifiers in the subtrees of a list of nodes. -/
def subtreeIdsL : List DomNode → List Nat
  | [] => []
  | c :: cs => subtreeIds c ++ subtreeIdsL cs
end

/-- The identifiers of the strict descendants of a node: a driver search
started from an element handle ranges over the element's descendants,
not the element itself. -/
def strictDescIds (n : DomNode) : List Nat :=
  subtreeIdsL n.children

mutual
/-- Locate the node carrying a given identifier in a document tree. -/
def findNode : DomNode → Nat → Option DomNode
  | .mk i cs, k => if i == k then some (.mk i cs) else findNodeL cs k

/-- Locate the node carrying a given identifier among a list of trees. -/
def findNodeL : List DomNode → Nat → Option DomNode
  | [], _ => none
  | c :: cs, k =>
    match findNode c k with
    | some r => some r
    | none => findNodeL cs k
end

/-- The strict descendants of the node with identifier `sid` in `doc`
(empty when no such node exists, e.g. a stale handle). -/
def strictDescIdsOf (doc : DomNode) (sid : Nat) : List Nat :=
  match findNode doc sid with
  | some n => strictDescIds n
  | none => []

/-- The driver boundary: the document observed at each tick, and the
driver's judgment of whether a node matches a (by, locator) pair
(matching is resolved by the browser; the repository only passes the
strings through). -/
structure Driver where
  docAt : Nat → DomNode
  matchesLoc : Nat → String → String → Bool

/-- The locator strategies used by the repository
(`selenium.webdriver.common.by.By`, plus the `By.CONTENT = 'content'`
strategy the repository patches in at `element.py` line 8). -/
def By.ID : String := "id"

/-- Strategy string `By.NAME`. -/
def By.NAME : String := "name"

/-- Strategy string `By.XPATH`. -/
def By.XPATH : String := "xpath"

/-- Strategy string `By.CSS_SELECTOR`. -/
def By.CSS_SELECTOR : String := "css selector"

/-- Strategy string `By.CONTENT`, patched onto `By` in `element.py`. -/
def By.CONTENT : String := "content"

/-- The exact-text XPath that `ElementSelector.find` substitutes for a
`By.CONTENT` locator (`element.py` lines 91-94):
`'//*[normalize-space() = "{}"]/text()/..'.format(locator)`. -/
def contentXPath (text : String) : String :=
  "//*[normalize-space() = \"" ++ text ++ "\"]/text()/.."

/-- Modelled driver semantics of `scope.find_elements(by, locator)` at
tick `t`: with no scope (the driver itself) the search ranges over the
whole document; with an element scope it ranges over that element's
strict descendants — except that an XPath locator beginning with `//` is
absolute and is evaluated from the document root even when the search is
started from an element handle (documented Selenium/XPath behaviour). -/
def Driver.findElementsAt (d : Driver) (t : Nat) (scope : Option Nat)
    (byS loc : String) : List Nat :=
  let doc := d.docAt t
  let searchSpace : List Nat :=
    match scope with
    | none => strictDescIds doc
    | some sid =>
      if byS == By.XPATH && "//".toList.isPrefixOf loc.toList then strictDescIds doc
      else strictDescIdsOf doc sid
  searchSpace.filter (fun nid => d.matchesLoc nid byS loc)

/-- Embedding of `WebDriverWait(driver, timeout).until(cond)`: polls `cond` once per
tick starting at `t0`, for at most `fuel` polls; returns the tick of the
first poll at which `cond` held, or `none` when every poll failed
(selenium then raises `TimeoutException`).  `cond` raising an ignored
exception (`NoSuchElementException`, selenium's default) counts as a
failed poll, so the condition is modelled as a `Bool`. -/
def firstTick (cond : Nat → Bool) (t0 : Nat) : Nat → Option Nat
  | 0 => none
  | fuel + 1 => if cond t0 then some t0 else firstTick cond (t0 + 1) fuel

/-- Errors raised by the embedded code.  `elementNotFound loc byS`
embeds the `TimeoutException` that `ElementSelector.find` re-raises with
the message `"Element not found. Locator: '<loc>'. Find method: '<byS>'"`
(`element.py` lines 115-121) — the message carries exactly the locator
and the strategy, recorded here structurally.  `noSuchElement` is
selenium's `NoSuchElementException` escaping the final `find_element`
call; `indexError` is Python's `IndexError` from `elements[0]`;
`attributeError n` is Python's `AttributeError` from `getattr`;
`waitTimeout` is the bare `TimeoutException` out of
`BasePage.wait_until`. -/
inductive SelError where
  | elementNotFound (loc byS : String)
  | noSuchElement
  | indexError
  | attributeError (n : String)
  | waitTimeout
deriving Repr, DecidableEq

/-- The value returned by `ElementSelector.find`: one element handle
when `multiple=False`, a list of handles when `multiple=True`. -/
inductive FindOutcome where
  | single (nid : Nat)
  | many (nids : List Nat)
deriving Repr, DecidableEq

/-- The handles carried by a `FindOutcome`. -/
def outcomeIds : FindOutcome → List Nat
  | .single n => [n]
  | .many l => l

/-- Embedding of `ElementSelector.find` (`element.py` lines 67-121),
started at tick `t0` with a poll budget of `fuel` ticks:
`if not scope: scope = driver` is the `none` case of `scope`;
a `By.CONTENT` locator is rewritten to the absolute XPath
`contentXPath loc` before polling; the wait polls until the finder's
result is truthy (a non-empty `find_elements` list, or `find_element`
returning instead of raising the ignored `NoSuchElementException`);
after a successful poll the finder is invoked once more — one tick
later, since the document may have changed — and its result returned.
On poll timeout the caught `TimeoutException` is re-raised carrying the
(possibly rewritten) locator and strategy. -/
def ElementSelector.find (d : Driver) (t0 : Nat) (byS loc : String)
    (multiple : Bool) (scope : Option Nat) (fuel : Nat) :
    Except SelError FindOutcome :=
  if byS == By.CONTENT then
    let byX := By.XPATH
    let locX := contentXPath loc
    match firstTick (fun t => !(d.findElementsAt t scope byX locX).isEmpty) t0 fuel with
    | none => .error (.elementNotFound locX byX)
    | some ts =>
      let elements := d.findElementsAt (ts + 1) scope byX locX
      if multiple then .ok (.many elements)
      else
        match elements with
        | [] => .error .indexError
        | e :: _ => .ok (.single e)
  else
    match firstTick (fun t => !(d.findElementsAt t scope byS loc).isEmpty) t0 fuel with
    | none => .error (.elementNotFound loc byS)
    | some ts =>
      if multiple then .ok (.many (d.findElementsAt (ts + 1) scope byS loc))
      else
        match d.findElementsAt (ts + 1) scope byS loc with
        | [] => .error .noSuchElement
        | e :: _ => .ok (.single e)

/-- Embedding of the root resolution done by `SectionSelector.__get__`
(`section.py` lines 57-64): the section's own `element` is resolved with
`ElementSelector.find` using the section's locator, `multiple=False`,
and the parent's already-resolved element (or the document when the
parent has none) as the scope. -/
def SectionSelector.get (d : Driver) (t0 : Nat) (byS loc : String)
    (parentScope : Option Nat) (fuel : Nat) : Except SelError Nat :=
  match ElementSelector.find d t0 byS loc false parentScope fuel with
  | .ok (.single n) => .ok n
  | .ok (.many _) => .error .noSuchElement
  | .error e => .error e

/-- A declared child descriptor on a page or section: a lazy element
selector (`ElementSelector(by, locator, multiple)`) or a nested section
(`SectionSelector(by, locator, **children)`).  Declaration-time metadata
only; resolution happens at attribute access. -/
inductive Descr where
  | element (byS loc : String) (multiple : Bool)
  | section (byS loc : String) (children : List (String × Descr))

/-- A live object reached while walking attributes: the page itself (no
`element` attribute, so children resolve against the document), a
resolved section (children resolve against its root handle), or a
resolved element. -/
inductive Resolved where
  | page (children : List (String × Descr))
  | sec (root : Nat) (children : List (String × Descr))
  | elem (r : FindOutcome)

/-- The scope a child resolution receives:
`getattr(parent, 'element', None)` — the section's resolved root, or
`none` for a page (`element.py` line 64, `section.py` line 63). -/
def Resolved.scopeOf : Resolved → Option Nat
  | .page _ => none
  | .sec root _ => some root
  | .elem _ => none

/-- The declared descriptors of the object (a resolved element declares
none). -/
def Resolved.childrenOf : Resolved → List (String × Descr)
  | .page ch => ch
  | .sec _ ch => ch
  | .elem _ => []

/-- One attribute access through the descriptor protocol: looking up a
declared `ElementSelector` runs `ElementSelector.__get__` (a fresh
`ElementSelector.find` scoped to the owner), looking up a declared
`SectionSelector` runs `SectionSelector.__get__` (a fresh root
resolution), and a name with no declared descriptor raises
`AttributeError`. -/
def BasePage.getattr (d : Driver) (t0 fuel : Nat) (r : Resolved)
    (n : String) : Except SelError Resolved :=
  match r.childrenOf.find? (fun p => p.1 == n) with
  | none => .error (.attributeError n)
  | some (_, .element byS loc mult) =>
    (ElementSelector.find d t0 byS loc mult r.scopeOf fuel).map .elem
  | some (_, .section byS loc ch) =>
    (SectionSelector.get d t0 byS loc r.scopeOf fuel).map (fun root => .sec root ch)

/-- Embedding of `BasePage.get_element` (`base_page.py` lines 93-104):
`element = self`, then `element = getattr(element, name)` for each name
in order, returning the final value. -/
def BasePage.get_element (d : Driver) (t0 fuel : Nat) (p : Resolved)
    (names : List String) : Except SelError Resolved :=
  names.foldlM (fun e n => BasePage.getattr d t0 fuel e n) p

/-- Modelled from the documented semantics of Python `re.match` for the
anchored patterns `'^' ++ u ++ '$'` that `assert_on_page` builds,
restricted to pattern bodies containing no regex metacharacter other
than `.` : each `.` matches any single character except a newline, every
other pattern character matches itself literally, and the trailing `$`
accepts the end of the string or a single trailing newline. -/
def reAnchoredMatch : List Char → List Char → Bool
  | [], [] => true
  | [], ['\n'] => true
  | [], _ :: _ :: _ => false
  | [], [_] => false
  | _ :: _, [] => false
  | p :: ps, c :: cs =>
    (if p == '.' then c != '\n' else p == c) && reAnchoredMatch ps cs

/-- Embedding of `BasePage.assert_on_page` (`base_page.py` lines
106-113): polls `re.match('^{}$'.format(self.url), driver.current_url)`
once per tick for at most `fuel` polls (`wait_until` with the page
timeout); on success returns, on timeout `WebDriverWait` raises a bare
`TimeoutException`.  Note the page URL is interpolated into the regex
pattern unescaped, so it is matched as a regex, not as a literal
string. -/
def BasePage.assert_on_page (current : Nat → String) (url : String)
    (fuel : Nat) : Except SelError Unit :=
  match firstTick (fun t => reAnchoredMatch url.toList (current t).toList) 0 fuel with
  | some _ => .ok ()
  | none => .error .waitTimeout

/-- Modelled from the documented semantics of Python
`re.match('^.*#[^/]', path)` (`base_page.py` line 48): true exactly when
the path contains a `#` that is followed by a character other than `/`,
with no newline before that `#` (`.` does not cross newlines) — the
"embedded fragment" test. -/
def reMatchHashNonSlash : List Char → Bool
  | [] => false
  | c :: cs =>
    (c == '#' && (match cs with | d :: _ => d != '/' | [] => false))
    || (c != '\n' && reMatchHashNonSlash cs)

/-- Embedding of the path normalization in `BasePage.__init__`
(`base_page.py` lines 46-51): a single `/` is appended when the path
does not already end with `/`, does not end with the literal suffix
`(\#.*)?` (the optional-hash regex tail some page paths carry), and
does not contain a `#` followed by a non-`/` character. -/
def normalizePath (path : String) : String :=
  if !(['/'].isSuffixOf path.toList)
      && !("(\\#.*)?".toList.isSuffixOf path.toList)
      && !(reMatchHashNonSlash path.toList)
  then path ++ "/" else path

/-- Modelled from the documented behaviour of Python's stdlib
`urllib.parse.urljoin` (an external collaborator, not repository code),
restricted to the case the page objects exercise here: a base of the
form `scheme://host` with an empty path, joined with an absolute path
(optionally carrying a `#` fragment), where the join is concatenation. -/
def urljoin (base path : String) : String :=
  base ++ path

/-- The full URL computed by `BasePage.__init__` (`base_page.py` lines
46-53): `urljoin(base, path)` after path normalization. -/
def BasePage.url (base path : String) : String :=
  urljoin base (normalizePath path)

/-- Result of `CheckboxInput.complete`: how many clicks were issued and
the element's selected state afterwards. -/
structure CheckboxResult where
  clicks : Nat
  selected : Bool
deriving Repr, DecidableEq

/-- Embedding of `CheckboxInput.complete` (`form.py` lines 162-173)
over the resolved element's selected state: the element is clicked
exactly when `element.is_selected() ^ (checked == 'checked')`; clicking
a checkbox toggles its selected state (driver semantics). -/
def CheckboxInput.complete (selected : Bool) (checked : String) : CheckboxResult :=
  if xor selected (checked == "checked") then ⟨1, !selected⟩ else ⟨0, selected⟩

/-- One member of a checkable group: the text of its associated label
(`label[for=<id>]`) and whether the input is currently selected. -/
structure GroupMember where
  labelText : String
  selected : Bool
deriving Repr, DecidableEq

/-- Embedding of `CheckableGroupInput.complete` (`form.py` lines
117-130): scan the group's members in order; at the first member whose
associated label text equals the target AND whose input
`is_selected()` is false, scroll the input into view, click the label,
and break.  Returns the index of the clicked member (`none` when no
member is clicked). -/
def CheckableGroupInput.complete : List GroupMember → String → Option Nat
  | [], _ => none
  | m :: ms, target =>
    if m.labelText == target && !m.selected then some 0
    else (CheckableGroupInput.complete ms target).map (· + 1)

/-- The claim's words (for comparison with the source behaviour): the
index of the first member whose associated label text equals the
target, irrespective of selection state. -/
def firstLabelMatch : List GroupMember → String → Option Nat
  | [], _ => none
  | m :: ms, target =>
    if m.labelText == target then some 0
    else (firstLabelMatch ms target).map (· + 1)

/-- Python's bare `Exception`: its single constructor carries no
fields, mirroring `raise Exception` with no arguments. -/
inductive PyError where
  | bareException
deriving Repr, DecidableEq

/-- Embedding of `FormInput.verify` (`form.py` lines 80-95) over the
observed attribute value `element.get_attribute('value')`: when the
observed value differs from the expected one, print the diagnostic line
(returned first) and raise a bare `Exception`; otherwise succeed.  The
alias, expected and observed values appear only in the printed line —
the raised error itself carries nothing. -/
def FormInput.verify (aliasS value observed : String) :
    List String × Except PyError Unit :=
  if !(observed == value) then
    (["Expected " ++ aliasS ++ " to be " ++ value ++ " but got " ++ observed],
      .error .bareException)
  else ([], .ok ())

/-- Embedding of `SelectInput.verify` (`form.py` lines 250-259) over
the observed `select.first_selected_option.text`: same shape as
`FormInput.verify` — print the diagnostic and raise a bare `Exception`
on mismatch. -/
def SelectInput.verify (aliasS value observed : String) :
    List String × Except PyError Unit :=
  if !(observed == value) then
    (["Expected " ++ aliasS ++ " to be " ++ value ++ " but got " ++ observed],
      .error .bareException)
  else ([], .ok ())

/-- Split a character list at the first occurrence of `sep`:
`none` when `sep` does not occur. -/
def splitFirst (sep : Char) : List Char → Option (List Char × List Char)
  | [] => none
  | c :: cs =>
    if c == sep then some ([], cs)
    else (splitFirst sep cs).map (fun p => (c :: p.1, p.2))

/-- Python `s.split(sep, 1)` for a one-character separator: at most two
parts, the second keeping any further separators. -/
def pySplitOnce (sep : Char) (s : String) : List String :=
  match splitFirst sep s.toList with
  | none => [s]
  | some (a, rest) => [a.asString, rest.asString]

/-- Python `s.split(sep, 2)` for a one-character separator: at most
three parts, the third keeping any further separators. -/
def pySplitTwice (sep : Char) (s : String) : List String :=
  match splitFirst sep s.toList with
  | none => [s]
  | some (a, rest) =>
    match splitFirst sep rest with
    | none => [a.asString, rest.asString]
    | some (b, rest2) => [a.asString, b.asString, rest2.asString]

/-- Python `s.lstrip('0')`: drop every leading `'0'`. -/
def lstrip0 (s : String) : String :=
  (s.toList.dropWhile (· == '0')).asString

/-- The 12-entry `intToMonth` table of `DateInput.complete` (`form.py`
lines 273-286); lookup of a key outside the table raises `KeyError`,
modelled as `none`. -/
def intToMonth : String → Option String
  | "1" => some "Jan"
  | "2" => some "Feb"
  | "3" => some "Mar"
  | "4" => some "Apr"
  | "5" => some "May"
  | "6" => some "Jun"
  | "7" => some "Jul"
  | "8" => some "Aug"
  | "9" => some "Sep"
  | "10" => some "Oct"
  | "11" => some "Nov"
  | "12" => some "Dec"
  | _ => none

/-- Embedding of `DateInput.complete` (`form.py` lines 262-299):
`name, date = info.split(':', 1)`; `day, month, year = date.split('/', 2)`
(an unpack of the wrong arity raises `ValueError`, modelled as `none`);
the day's leading zeros are stripped, the month is stripped and mapped
through `intToMonth`; then the three `SelectInput`s named `name-day`,
`name-month`, `name-year` are completed independently, in that order —
returned as the (field name, visible text) fill list. -/
def DateInput.complete (info : String) : Option (List (String × String)) :=
  match pySplitOnce ':' info with
  | [name, date] =>
    match pySplitTwice '/' date with
    | [day, month, year] =>
      (intToMonth (lstrip0 month)).map (fun mn =>
        [(name ++ "-day", lstrip0 day),
         (name ++ "-month", mn),
         (name ++ "-year", year)])
    | _ => none
  | _ => none

/-! Concrete fixtures used by counterexamples and witnesses. -/

/-- A document: root `0` containing a section root `1` (whose only
descendant is `2`) and, outside the section, a node `5`. -/
def docC1 : DomNode := .mk 0 [.mk 1 [.mk 2 []], .mk 5 []]

/-- A static driver over `docC1` in which `#sec` (CSS) matches the
section root `1` and the exact-text XPath for `"hello"` matches only
node `5`, which lies outside the section. -/
def dC1 : Driver where
  docAt := fun _ => docC1
  matchesLoc := fun nid byS loc =>
    (byS == By.CSS_SELECTOR && loc == "#sec" && nid == 1)
    || (byS == By.XPATH && loc == contentXPath "hello" && nid == 5)

/-- A static driver over `docC1` in which `#sec` (CSS) matches the
section root `1` and `.x` (CSS) matches node `2` inside the section and
node `5` outside it. -/
def dC1w : Driver where
  docAt := fun _ => docC1
  matchesLoc := fun nid byS loc =>
    (byS == By.CSS_SELECTOR && loc == "#sec" && nid == 1)
    || (byS == By.CSS_SELECTOR && loc == ".x" && (nid == 2 || nid == 5))

/-- A static driver whose document matches no locator at all. -/
def dEmpty : Driver where
  docAt := fun _ => .mk 0 []
  matchesLoc := fun _ _ _ => false

/-- A static driver over a one-element document in which the `name`
locator `"q"` matches node `1`. -/
def dC9 : Driver where
  docAt := fun _ => .mk 0 [.mk 1 []]
  matchesLoc := fun nid byS loc => byS == By.NAME && loc == "q" && nid == 1

/-- The effective (locator, strategy) pair `ElementSelector.find` polls
with and reports on timeout: a `By.CONTENT` pair is rewritten to the
exact-text XPath, every other pair is used as given. -/
def effectivePair (byS loc : String) : String × String :=
  if byS == By.CONTENT then (By.XPATH, contentXPath loc) else (byS, loc)

/-! Helper lemmas. -/

theorem firstTick_none_iff (cond : Nat → Bool) :
    ∀ (fuel t0 : Nat),
      firstTick cond t0 fuel = none ↔ ∀ k, k < fuel → cond (t0 + k) = false := by
  intro fuel
  induction fuel with
  | zero => intro t0; simp [firstTick]
  | succ n ih =>
    intro t0
    constructor
    · intro hnone k hk
      by_cases h : cond t0
      · simp [firstTick, h] at hnone
      · rcases Nat.eq_zero_or_pos k with rfl | hkpos
        · simpa using h
        · have hnone' : firstTick cond (t0 + 1) n = none := by
            simpa [firstTick, h] using hnone
          have hmem := (ih (t0 + 1)).mp hnone' (k - 1) (by omega)
          have heq : t0 + 1 + (k - 1) = t0 + k := by omega
          rwa [heq] at hmem
    · intro hall
      have h0 : cond t0 = false := by simpa using hall 0 (by omega)
      have hrest : firstTick cond (t0 + 1) n = none :=
        (ih (t0 + 1)).mpr (fun k hk => by
          have hmem := hall (k + 1) (by omega)
          have heq : t0 + (k + 1) = t0 + 1 + k := by omega
          rwa [heq] at hmem)
      simp [firstTick, h0, hrest]

theorem firstTick_some_cond (cond : Nat → Bool) :
    ∀ (fuel t0 ts : Nat), firstTick cond t0 fuel = some ts → cond ts = true := by
  intro fuel
  induction fuel with
  | zero => intro t0 ts h; simp [firstTick] at h
  | succ n ih =>
    intro t0 ts h
    by_cases hc : cond t0
    · have : t0 = ts := by simpa [firstTick, hc] using h
      rw [← this]; exact hc
    · exact ih (t0 + 1) ts (by simpa [firstTick, hc] using h)

theorem firstTick_isSome_iff (cond : Nat → Bool) (fuel t0 : Nat) :
    (∃ ts, firstTick cond t0 fuel = some ts) ↔ ∃ k, k < fuel ∧ cond (t0 + k) = true := by
  constructor
  · intro ⟨ts, hts⟩
    by_contra hno
    push_neg at hno
    have hnone : firstTick cond t0 fuel = none :=
      (firstTick_none_iff cond fuel t0).mpr (fun k hk => by
        have h := hno k hk
        simpa using h)
    simp [hnone] at hts
  · intro ⟨k, hk, hck⟩
    rcases h : firstTick cond t0 fuel with _ | ts
    · have := (firstTick_none_iff cond fuel t0).mp h k hk
      simp [this] at hck
    · exact ⟨ts, rfl⟩

theorem findElementsAt_scoped_subset (d : Driver) (t sid : Nat) (byS loc : String)
    (habs : (byS == By.XPATH && "//".toList.isPrefixOf loc.toList) = false) :
    ∀ nid ∈ d.findElementsAt t (some sid) byS loc,
      nid ∈ strictDescIdsOf (d.docAt t) sid := by
  intro nid h
  simp only [Driver.findElementsAt, habs, if_false, Bool.false_eq_true] at h
  exact (List.mem_filter.mp h).1

theorem findElementsAt_static (d : Driver) (doc : DomNode)
    (hstatic : d.docAt = fun _ => doc) (t t' : Nat) (scope : Option Nat)
    (byS loc : String) :
    d.findElementsAt t scope byS loc = d.findElementsAt t' scope byS loc := by
  simp [Driver.findElementsAt, hstatic]

/-! Claim theorems. -/

/-- C2: for every checkbox state and desired value, `fill` clicks the
element exactly when the current selected-state XOR the desired state
("checked") differ; consequently filling "checked" twice leaves the box
checked after both calls and the second call never produces a click. -/
theorem claim_C2_checkbox_idempotent (selected : Bool) (desired : String) :
    (CheckboxInput.complete selected desired).clicks
        = (if xor selected (desired == "checked") then 1 else 0)
    ∧ (CheckboxInput.complete selected "checked").selected = true
    ∧ (CheckboxInput.complete
        (CheckboxInput.complete selected "checked").selected "checked").selected = true
    ∧ (CheckboxInput.complete
        (CheckboxInput.complete selected "checked").selected "checked").clicks = 0 := by
  cases selected <;> cases h : desired == "checked" <;>
    simp [CheckboxInput.complete, h]

/-- C3: a path lacking a trailing slash, the optional-hash suffix
`(\#.*)?`, and an embedded `#`-fragment gets exactly one trailing slash
appended; path `/foo` with base `https://example.com` yields
`https://example.com/foo/`, and `/foo#bar` yields
`https://example.com/foo#bar` with no slash inserted. -/
theorem claim_C3_url_normalization (path : String)
    (h1 : ['/'].isSuffixOf path.toList = false)
    (h2 : "(\\#.*)?".toList.isSuffixOf path.toList = false)
    (h3 : reMatchHashNonSlash path.toList = false) :
    normalizePath path = path ++ "/"
    ∧ BasePage.url "https://example.com" "/foo" = "https://example.com/foo/"
    ∧ BasePage.url "https://example.com" "/foo#bar" = "https://example.com/foo#bar" := by
  refine ⟨?_, by decide, by decide⟩
  unfold normalizePath
  rw [h1, h2, h3]
  simp

/-- C3 witness: the theorem instantiated at path `/foo`. -/
theorem claim_C3_url_normalization_witness :
    normalizePath "/foo" = "/foo" ++ "/"
    ∧ BasePage.url "https://example.com" "/foo" = "https://example.com/foo/"
    ∧ BasePage.url "https://example.com" "/foo#bar" = "https://example.com/foo#bar" :=
  claim_C3_url_normalization "/foo" (by decide) (by decide) (by decide)

/-- C4: a composite value that splits as `name:day/month/year` with the
stripped month in the table fills the three Select sub-fields
`name-day`, `name-month`, `name-year` — in that order — with the
zero-stripped day, the 3-letter month name, and the year. -/
theorem claim_C4_date_decomposition (info name date day month year mn : String)
    (h1 : pySplitOnce ':' info = [name, date])
    (h2 : pySplitTwice '/' date = [day, month, year])
    (h3 : intToMonth (lstrip0 month) = some mn) :
    DateInput.complete info =
      some [(name ++ "-day", lstrip0 day), (name ++ "-month", mn),
            (name ++ "-year", year)] := by
  simp [DateInput.complete, h1, h2, h3]

/-- C4 witness: `"dob:05/03/1990"` fills `dob-day` with `"5"`,
`dob-month` with `"Mar"`, `dob-year` with `"1990"`. -/
theorem claim_C4_date_decomposition_witness :
    DateInput.complete "dob:05/03/1990" =
      some [("dob-day", "5"), ("dob-month", "Mar"), ("dob-year", "1990")] := by
  have h := claim_C4_date_decomposition "dob:05/03/1990" "dob" "05/03/1990"
    "05" "03" "1990" "Mar" (by decide) (by decide) (by decide)
  exact h

/-- C6: evaluated at a mismatching field, `verify` (both the base
`FormInput.verify` and `SelectInput.verify`) prints the alias, expected
and observed values but raises a bare, payload-free `Exception`; the
general conjunct shows the exception is raised exactly when the
observed value differs from the expected one (never silently
continued). -/
theorem claim_C6_verify_bare_exception :
    FormInput.verify "email" "a@b.com" "oops@b.com" =
      (["Expected email to be a@b.com but got oops@b.com"], .error .bareException)
    ∧ SelectInput.verify "title" "Mr" "Dr" =
      (["Expected title to be Mr but got Dr"], .error .bareException)
    ∧ ∀ aliasS value observed : String,
        ((FormInput.verify aliasS value observed).2 = .error .bareException
          ↔ (observed == value) = false)
        ∧ ((SelectInput.verify aliasS value observed).2 = .ok ()
          ↔ (observed == value) = true) := by
  refine ⟨rfl, rfl, ?_⟩
  intro a v o
  constructor
  · unfold FormInput.verify
    cases h : o == v <;> simp [h]
  · unfold SelectInput.verify
    cases h : o == v <;> simp [h]

/-- C8 counterexample: in a group whose first label-text match (index 0)
is already selected, the member clicked is index 1 — a member after the
first label-text match — so the claim's "first label-text match wins" is
false on the code. -/
theorem claim_C8_counterexample :
    CheckableGroupInput.complete [⟨"Yes", true⟩, ⟨"Yes", false⟩] "Yes" = some 1
    ∧ firstLabelMatch [⟨"Yes", true⟩, ⟨"Yes", false⟩] "Yes" = some 0 := by
  decide

/-- C8 amended: scanning in order, the member clicked is exactly the
first member whose associated label text equals the target AND whose
input is not already selected; scanning then stops, so at most that one
member is clicked and already-selected label matches are skipped. -/
theorem claim_C8_first_unselected_match (ms : List GroupMember) (target : String) :
    CheckableGroupInput.complete ms target =
      ms.findIdx? (fun m => m.labelText == target && !m.selected) := by
  induction ms with
  | nil => simp [CheckableGroupInput.complete]
  | cons m rest ih => simp [CheckableGroupInput.complete, List.findIdx?_cons, ih]

/-- C8 witness: the amended theorem applied to a concrete group. -/
theorem claim_C8_first_unselected_match_witness :
    CheckableGroupInput.complete [⟨"No", false⟩, ⟨"Yes", false⟩] "Yes" =
      [GroupMember.mk "No" false, GroupMember.mk "Yes" false].findIdx?
        (fun m => m.labelText == "Yes" && !m.selected) :=
  claim_C8_first_unselected_match _ "Yes"

/-- C10: `get_element` with no names returns the page itself unchanged;
with names `n :: ns` it performs the lookup for `n` and recurses on the
result, so `k` names are `k` successive attribute lookups; and a lookup
hitting a declared element descriptor runs a fresh
`ElementSelector.find` at that hop. -/
theorem claim_C10_get_element_walk (d : Driver) (t0 fuel : Nat) (p : Resolved)
    (n : String) (ns : List String) (ch : List (String × Descr))
    (byS loc : String) (mult : Bool) :
    BasePage.get_element d t0 fuel p [] = .ok p
    ∧ BasePage.get_element d t0 fuel p (n :: ns) =
        (BasePage.getattr d t0 fuel p n).bind
          (fun q => BasePage.get_element d t0 fuel q ns)
    ∧ BasePage.getattr d t0 fuel (.page ((n, .element byS loc mult) :: ch)) n =
        (ElementSelector.find d t0 byS loc mult none fuel).map .elem := by
  refine ⟨rfl, ?_, ?_⟩
  · simp [BasePage.get_element, List.foldlM, Bind.bind, Except.bind]
  · simp [BasePage.getattr, Resolved.childrenOf, Resolved.scopeOf, List.find?]

/-- C10 witness: the theorem instantiated at a concrete page. -/
theorem claim_C10_get_element_walk_witness :
    BasePage.get_element dEmpty 0 1 (.page []) [] = .ok (.page []) :=
  (claim_C10_get_element_walk dEmpty 0 1 (.page []) "x" [] [] By.NAME "x" false).1

theorem find_ok_mem (d : Driver) (t0 : Nat) (byS loc : String) (mult : Bool)
    (scope : Option Nat) (fuel : Nat) (out : FindOutcome)
    (hby : (byS == By.CONTENT) = false)
    (hok : ElementSelector.find d t0 byS loc mult scope fuel = .ok out) :
    ∀ nid ∈ outcomeIds out, ∃ t, nid ∈ d.findElementsAt t scope byS loc := by
  intro nid hmem
  simp only [ElementSelector.find, hby, Bool.false_eq_true, if_false] at hok
  cases hft : firstTick (fun t => !(d.findElementsAt t scope byS loc).isEmpty) t0 fuel with
  | none => rw [hft] at hok; cases hok
  | some ts =>
    rw [hft] at hok
    cases mult with
    | true =>
      simp only [if_true] at hok
      injection hok with h
      subst h
      exact ⟨ts + 1, hmem⟩
    | false =>
      simp only [Bool.false_eq_true, if_false] at hok
      cases hl : d.findElementsAt (ts + 1) scope byS loc with
      | nil => rw [hl] at hok; cases hok
      | cons e es =>
        rw [hl] at hok
        injection hok with h
        subst h
        have : nid = e := by simpa [outcomeIds] using hmem
        subst this
        exact ⟨ts + 1, by rw [hl]; exact List.mem_cons_self _ _⟩

/-- C1 counterexample: children of a resolved section are supposed to
stay inside the section, but a TEXT-CONTENT child is rewritten to an
absolute XPath and escapes: over `docC1` the section root resolves to
node `1` (whose only descendant is `2`), yet resolving the section's
TEXT-CONTENT child `"hello"` against that root returns node `5`, which
is outside the section subtree (a matching node existing elsewhere in
the document). -/
theorem claim_C1_counterexample :
    SectionSelector.get dC1 0 By.CSS_SELECTOR "#sec" none 5 = .ok 1
    ∧ ElementSelector.find dC1 0 By.CONTENT "hello" false (some 1) 5 =
        .ok (.single 5)
    ∧ 5 ∉ strictDescIdsOf docC1 1
    ∧ 5 ∈ strictDescIds docC1 :=
  ⟨rfl, rfl, by decide, by decide⟩

/-- C1 amended: for a section whose root has been resolved, resolving a
child whose strategy is not TEXT-CONTENT (and not an absolute XPath)
against that root returns only nodes inside the section root's subtree,
even when a matching node exists elsewhere in the static document. -/
theorem claim_C1_scope_containment (d : Driver) (doc : DomNode)
    (t0 t1 fuel1 fuel2 : Nat) (secBy secLoc : String) (parentScope : Option Nat)
    (byS loc : String) (mult : Bool) (root : Nat) (out : FindOutcome)
    (hstatic : d.docAt = fun _ => doc)
    (hby : (byS == By.CONTENT) = false)
    (habs : (byS == By.XPATH && "//".toList.isPrefixOf loc.toList) = false)
    (hsec : SectionSelector.get d t0 secBy secLoc parentScope fuel1 = .ok root)
    (hfind : ElementSelector.find d t1 byS loc mult (some root) fuel2 = .ok out) :
    ∀ nid, nid ∈ outcomeIds out → nid ∈ strictDescIdsOf doc root := by
  intro nid hmem
  obtain ⟨t, ht⟩ := find_ok_mem d t1 byS loc mult (some root) fuel2 out hby hfind nid hmem
  have h := findElementsAt_scoped_subset d t root byS loc habs nid ht
  rwa [hstatic] at h

/-- C1 witness: the amended theorem at a concrete instance — a CSS
child `.x` of the resolved section root `1`, with `.x` also matching
node `5` outside the section, resolves to node `2`, inside the section
subtree. -/
theorem claim_C1_scope_containment_witness :
    ElementSelector.find dC1w 0 By.CSS_SELECTOR ".x" false (some 1) 5 =
      .ok (.single 2)
    ∧ 2 ∈ strictDescIdsOf docC1 1 :=
  ⟨rfl,
    claim_C1_scope_containment dC1w docC1 0 0 5 5 By.CSS_SELECTOR "#sec" none
      By.CSS_SELECTOR ".x" false 1 (.single 2) rfl (by decide) (by decide)
      rfl rfl 2 (by decide)⟩

/-- C5: when the effective search yields zero matches at every poll of
the timeout window, `find` terminates with the re-raised timeout error
carrying the (effective) locator and strategy — no partial result. -/
theorem claim_C5_timeout_error (d : Driver) (t0 fuel : Nat) (byS loc : String)
    (mult : Bool) (scope : Option Nat)
    (hempty : ∀ k, k < fuel →
      d.findElementsAt (t0 + k) scope (effectivePair byS loc).1
        (effectivePair byS loc).2 = []) :
    ElementSelector.find d t0 byS loc mult scope fuel =
      .error (.elementNotFound (effectivePair byS loc).2 (effectivePair byS loc).1) := by
  by_cases hby : (byS == By.CONTENT) = true
  · have hnone : firstTick
        (fun t => !(d.findElementsAt t scope By.XPATH (contentXPath loc)).isEmpty)
        t0 fuel = none :=
      (firstTick_none_iff _ fuel t0).mpr (fun k hk => by
        have h := hempty k hk
        simp only [effectivePair, hby, if_true] at h
        simp [h])
    simp [ElementSelector.find, hby, hnone, effectivePair]
  · have hby' : (byS == By.CONTENT) = false := by simpa using hby
    have hnone : firstTick
        (fun t => !(d.findElementsAt t scope byS loc).isEmpty) t0 fuel = none :=
      (firstTick_none_iff _ fuel t0).mpr (fun k hk => by
        have h := hempty k hk
        simp only [effectivePair, hby', Bool.false_eq_true, if_false] at h
        simp [h])
    simp [ElementSelector.find, hby', hnone, effectivePair]

/-- C5 witness: against a driver matching nothing, a NAME lookup times
out with the error carrying the locator and the strategy. -/
theorem claim_C5_timeout_error_witness :
    ElementSelector.find dEmpty 0 By.NAME "email" false none 3 =
      .error (.elementNotFound "email" By.NAME) := by
  have h := claim_C5_timeout_error dEmpty 0 3 By.NAME "email" false none (by decide)
  exact h

/-- C7 counterexample: the page URL is interpolated into the regex
pattern unescaped, so its `.` characters match any character: for the
page built from base `https://example.com` and path `/foo`,
`assert_on_page` accepts the current location
`https://exampleXcom/foo/`, a string different from the page's full
URL — refuting "an anchored match accepting that URL string and no
other string". -/
theorem claim_C7_counterexample :
    BasePage.assert_on_page (fun _ => "https://exampleXcom/foo/")
      (BasePage.url "https://example.com" "/foo") 20 = .ok ()
    ∧ "https://exampleXcom/foo/" ≠ BasePage.url "https://example.com" "/foo" :=
  ⟨rfl, by decide⟩

/-- C7 amended: `assert_on_page` polls until the current location
matches the anchored pattern `'^' ++ url ++ '$'` with the URL read as a
regex (each `.` matching any non-newline character, so strings other
than the URL itself can be accepted), succeeding exactly when some poll
within the page-timeout window matches, and otherwise failing with the
poll-timeout error. -/
theorem claim_C7_anchored_regex_poll (current : Nat → String) (url : String)
    (fuel : Nat) :
    (BasePage.assert_on_page current url fuel = .ok ()
      ↔ ∃ k, k < fuel ∧ reAnchoredMatch url.toList (current k).toList = true)
    ∧ (BasePage.assert_on_page current url fuel = .ok ()
      ∨ BasePage.assert_on_page current url fuel = .error .waitTimeout) := by
  constructor
  · constructor
    · intro hok
      unfold BasePage.assert_on_page at hok
      cases hft : firstTick (fun t => reAnchoredMatch url.toList (current t).toList)
          0 fuel with
      | none => rw [hft] at hok; cases hok
      | some ts =>
        have h := (firstTick_isSome_iff
          (fun t => reAnchoredMatch url.toList (current t).toList) fuel 0).mp ⟨ts, hft⟩
        simpa using h
    · intro ⟨k, hk, hm⟩
      have hsome := (firstTick_isSome_iff
        (fun t => reAnchoredMatch url.toList (current t).toList) fuel 0).mpr
        ⟨k, hk, by simpa using hm⟩
      obtain ⟨ts, hts⟩ := hsome
      unfold BasePage.assert_on_page
      rw [hts]
  · unfold BasePage.assert_on_page
    cases hft : firstTick (fun t => reAnchoredMatch url.toList (current t).toList)
        0 fuel with
    | none => right; rfl
    | some ts => left; rfl

/-- C7 witness: the amended theorem applied at a current location that
equals the page URL. -/
theorem claim_C7_anchored_regex_poll_witness :
    BasePage.assert_on_page (fun _ => "https://example.com/foo/")
      (BasePage.url "https://example.com" "/foo") 20 = .ok () :=
  (claim_C7_anchored_regex_poll (fun _ => "https://example.com/foo/")
    (BasePage.url "https://example.com" "/foo") 20).1.mpr
    ⟨0, by decide, by decide⟩

/-- C9: over a document that does not change during one resolution,
whenever the poll succeeds the re-queried match list is still
non-empty: an `ok` result with `multiple=true` carries a non-empty
list, and the `IndexError` branch of the TEXT-CONTENT first-element
access and the `NoSuchElementException` of the final `find_element`
call are unreachable — `find` never returns those errors. -/
theorem claim_C9_success_nonempty (d : Driver) (doc : DomNode) (t0 : Nat)
    (byS loc : String) (mult : Bool) (scope : Option Nat) (fuel : Nat)
    (hstatic : d.docAt = fun _ => doc) :
    (∀ l, ElementSelector.find d t0 byS loc mult scope fuel = .ok (.many l) → l ≠ [])
    ∧ ElementSelector.find d t0 byS loc mult scope fuel ≠ .error .indexError
    ∧ ElementSelector.find d t0 byS loc mult scope fuel ≠ .error .noSuchElement := by
  by_cases hby : (byS == By.CONTENT) = true
  · simp only [ElementSelector.find, hby, if_true]
    cases hft : firstTick
        (fun t => !(d.findElementsAt t scope By.XPATH (contentXPath loc)).isEmpty)
        t0 fuel with
    | none => refine ⟨fun l hl => ?_, by simp, by simp⟩; cases hl
    | some ts =>
      have hcond := firstTick_some_cond _ fuel t0 ts hft
      have hne : d.findElementsAt ts scope By.XPATH (contentXPath loc) ≠ [] := by
        simpa using hcond
      have hne' : d.findElementsAt (ts + 1) scope By.XPATH (contentXPath loc) ≠ [] := by
        rw [findElementsAt_static d doc hstatic (ts + 1) ts]
        exact hne
      cases mult with
      | true =>
        refine ⟨fun l hl => ?_, by simp, by simp⟩
        simp only [if_true] at hl
        injection hl with h
        injection h with h2
        rw [← h2]
        exact hne'
      | false =>
        cases hl : d.findElementsAt (ts + 1) scope By.XPATH (contentXPath loc) with
        | nil => exact absurd hl hne'
        | cons e es =>
          simp only [Bool.false_eq_true, if_false, hl]
          refine ⟨?_, ?_, ?_⟩
          · intro l h
            cases h
          · simp
          · simp
  · have hby' : (byS == By.CONTENT) = false := by simpa using hby
    simp only [ElementSelector.find, hby', Bool.false_eq_true, if_false]
    cases hft : firstTick
        (fun t => !(d.findElementsAt t scope byS loc).isEmpty) t0 fuel with
    | none => refine ⟨fun l hl => ?_, by simp, by simp⟩; cases hl
    | some ts =>
      have hcond := firstTick_some_cond _ fuel t0 ts hft
      have hne : d.findElementsAt ts scope byS loc ≠ [] := by
        simpa using hcond
      have hne' : d.findElementsAt (ts + 1) scope byS loc ≠ [] := by
        rw [findElementsAt_static d doc hstatic (ts + 1) ts]
        exact hne
      cases mult with
      | true =>
        refine ⟨fun l hl => ?_, by simp, by simp⟩
        simp only [if_true] at hl
        injection hl with h
        injection h with h2
        rw [← h2]
        exact hne'
      | false =>
        cases hl : d.findElementsAt (ts + 1) scope byS loc with
        | nil => exact absurd hl hne'
        | cons e es =>
          simp only [Bool.false_eq_true, if_false, hl]
          refine ⟨?_, ?_, ?_⟩
          · intro l h
            cases h
          · simp
          · simp

/-- C9 witness: against a static driver with one matching node, a
single-element NAME resolution never hits the unreachable error
branches. -/
theorem claim_C9_success_nonempty_witness :
    ElementSelector.find dC9 0 By.NAME "q" false none 3 ≠ .error .noSuchElement :=
  (claim_C9_success_nonempty dC9 (.mk 0 [.mk 1 []]) 0 By.NAME "q" false none 3
    rfl).2.2
